import Mathlib

/-!
Verification of `internal/cmd/local/local_install.go` from abctl.

The Go file defines the `local install` cobra command.  Its pure logic —
mount-spec parsing, environment-variable overrides, chart-version
normalization, option assembly — is embedded directly as Lean functions.
The effectful pipeline (`PreRunE` / `RunE`) is embedded as a function of a
`World` record that fixes the outcome of every external collaborator call
(docker daemon, cluster client, local installer); the pipeline returns its
Go result together with the ordered trace of external calls and warnings
it performed, so that ordering and "never invoked" properties can be
stated and settled.
-/

namespace AbctlInstall

/-- Env-var overriding the default docker registry
(`ABCTL_LOCAL_INSTALL_DOCKER_SERVER` in the Go `const` block). -/
def envDockerServer : String := "ABCTL_LOCAL_INSTALL_DOCKER_SERVER"

/-- Env-var overriding the default docker username. -/
def envDockerUser : String := "ABCTL_LOCAL_INSTALL_DOCKER_USERNAME"

/-- Env-var overriding the default docker password. -/
def envDockerPass : String := "ABCTL_LOCAL_INSTALL_DOCKER_PASSWORD"

/-- Env-var overriding the default docker email. -/
def envDockerEmail : String := "ABCTL_LOCAL_INSTALL_DOCKER_EMAIL"

/-- `k8s.ExtraVolumeMount` (the record built by `parseVolumeMounts`). -/
structure ExtraVolumeMount where
  hostPath : String
  containerPath : String
deriving DecidableEq, Repr

/-- Go `strings.Split` with a one-rune separator, on the character list of
the string: splits around every occurrence of `sep`, keeping empty pieces,
and yields `[[]]` on the empty input (as `strings.Split("", sep)` yields
`[""]`). -/
def goSplit (sep : Char) : List Char → List (List Char)
  | [] => [[]]
  | c :: rest =>
    let groups := goSplit sep rest
    if c = sep then [] :: groups
    else
      match groups with
      | [] => [[c]]
      | g :: gs => (c :: g) :: gs

/-- `strings.Split(s, sep)` for a one-character separator `sep`. -/
def stringsSplit (s : String) (sep : Char) : List String :=
  (goSplit sep s.data).map (fun cs => String.mk cs)

/-- The error message built by `parseVolumeMounts` for a malformed spec
(`fmt.Errorf("volume %s is not a valid volume spec, must be <HOST_PATH>:<GUEST_PATH>", spec)`). -/
def volumeErrMsg (spec : String) : String :=
  "volume " ++ spec ++ " is not a valid volume spec, must be <HOST_PATH>:<GUEST_PATH>"

/-- One iteration of the loop body of `parseVolumeMounts`:
`parts := strings.Split(spec, ":")`; exactly two parts build a mount
(`HostPath: parts[0], ContainerPath: parts[1]`), any other shape returns
the error. -/
def parseVolumeMount1 (spec : String) : Except String ExtraVolumeMount :=
  match stringsSplit spec ':' with
  | [h, c] => Except.ok { hostPath := h, containerPath := c }
  | _ => Except.error (volumeErrMsg spec)

/-- `parseVolumeMounts` from the Go file: builds the result slice in input
order, returning `nil` together with the error of the first malformed
spec. -/
def parseVolumeMounts : List String → Except String (List ExtraVolumeMount)
  | [] => Except.ok []
  | spec :: rest =>
    match parseVolumeMount1 spec with
    | Except.error e => Except.error e
    | Except.ok m =>
      match parseVolumeMounts rest with
      | Except.error e => Except.error e
      | Except.ok ms => Except.ok (m :: ms)

/-- `envOverride` from the Go file.  `getenv` models `os.Getenv`, which
returns `""` both for an unset variable and for one set to the empty
string; when the value is non-empty the original is replaced. -/
def envOverride (getenv : String → String) (original : String) (env : String) : String :=
  if getenv env ≠ "" then getenv env else original

/-- `local.InstallOpts` as assembled in `RunE`.  The `Docker` field holds
the runtime-client handle, not configuration data, and is omitted. -/
structure InstallOpts where
  helmChartVersion : String
  valuesFile : String
  secrets : List String
  migrate : Bool
  host : String
  dockerServer : String
  dockerUser : String
  dockerPass : String
  dockerEmail : String
  noBrowser : Bool
  lowResourceMode : Bool
  insecureCookies : Bool
deriving DecidableEq, Repr

/-- The flag variables of `NewCmdInstall` after cobra has parsed the
command line (each holds its registered default when not passed). -/
structure Flags where
  chartValuesFile : String
  chartSecrets : List String
  chartVersion : String
  migrate : Bool
  port : Int
  host : String
  extraVolumeMounts : List String
  dockerServer : String
  dockerUser : String
  dockerPass : String
  dockerEmail : String
  noBrowser : Bool
  lowResourceMode : Bool
  insecureCookies : Bool
deriving DecidableEq, Repr

/-- The four `envOverride` calls of `RunE`, applied to the assembled
options in source order (server, user, pass, email). -/
def applyEnvOverrides (getenv : String → String) (opts : InstallOpts) : InstallOpts :=
  let o1 := { opts with dockerServer := envOverride getenv opts.dockerServer envDockerServer }
  let o2 := { o1 with dockerUser := envOverride getenv o1.dockerUser envDockerUser }
  let o3 := { o2 with dockerPass := envOverride getenv o2.dockerPass envDockerPass }
  { o3 with dockerEmail := envOverride getenv o3.dockerEmail envDockerEmail }

/-- The option assembly of `RunE`: the `opts := local.InstallOpts{...}`
literal, the `"latest"` normalization (`if opts.HelmChartVersion ==
"latest" { opts.HelmChartVersion = "" }`), then the four `envOverride`
calls.  This is the value handed to `lc.Install`. -/
def buildInstallOpts (flags : Flags) (getenv : String → String) : InstallOpts :=
  let opts : InstallOpts := {
    helmChartVersion := flags.chartVersion
    valuesFile := flags.chartValuesFile
    secrets := flags.chartSecrets
    migrate := flags.migrate
    host := flags.host
    dockerServer := flags.dockerServer
    dockerUser := flags.dockerUser
    dockerPass := flags.dockerPass
    dockerEmail := flags.dockerEmail
    noBrowser := flags.noBrowser
    lowResourceMode := flags.lowResourceMode
    insecureCookies := flags.insecureCookies }
  let opts2 := { opts with
    helmChartVersion := if opts.helmChartVersion = "latest" then "" else opts.helmChartVersion }
  applyEnvOverrides getenv opts2

/-- User-supplied state of the four docker credential flags: `none` when
the flag was not passed on the command line, `some v` when passed with
value `v`. -/
structure CredFlagInputs where
  server : Option String
  user : Option String
  pass : Option String
  email : Option String
deriving DecidableEq, Repr

/-- `cmd.MarkFlagsRequiredTogether("docker-username", "docker-password",
"docker-email")`: cobra accepts the command line only when those three
flags are all passed or all omitted.  `docker-server` is not in the
group. -/
def credFlagsValid (c : CredFlagInputs) : Prop :=
  (c.user.isSome ∧ c.pass.isSome ∧ c.email.isSome) ∨
  (c.user = none ∧ c.pass = none ∧ c.email = none)

/-- Registered default of the `docker-server` flag. -/
def dockerServerDefault : String := "https://index.docker.io/v1/"

/-- The flag variables after parsing: each credential flag falls back to
its registered default when omitted (`docker-server` to the registry URL,
the other three to `""`). -/
def resolveCredFlags (c : CredFlagInputs) (flags : Flags) : Flags :=
  { flags with
    dockerServer := c.server.getD dockerServerDefault
    dockerUser := c.user.getD ""
    dockerPass := c.pass.getD ""
    dockerEmail := c.email.getD "" }

/-- All four registry credential fields absent (empty). -/
def credsAllAbsent (o : InstallOpts) : Prop :=
  o.dockerServer = "" ∧ o.dockerUser = "" ∧ o.dockerPass = "" ∧ o.dockerEmail = ""

/-- All four registry credential fields present (non-empty). -/
def credsAllPresent (o : InstallOpts) : Prop :=
  o.dockerServer ≠ "" ∧ o.dockerUser ≠ "" ∧ o.dockerPass ≠ "" ∧ o.dockerEmail ≠ ""

/-- `k8s.Provider.Name` values relevant here: the kind provider (compared
against `k8s.Kind`) or any other provider. -/
inductive GoProviderName where
  | kind
  | other
deriving DecidableEq, Repr

/-- The `k8s.Provider` argument of `NewCmdInstall`. -/
structure Provider where
  name : GoProviderName
  clusterName : String
deriving DecidableEq, Repr

/-- The version record returned by `dockerInstalled`. -/
structure DockerVersion where
  version : String
  arch : String
  platform : String
deriving DecidableEq, Repr

/-- Outcomes of every external collaborator call the command performs.
Fixing a `World` makes the pipeline a pure function. -/
structure World where
  dockerVersionR : Except String DockerVersion
  portAvailableR : Int → Except String Unit
  clusterR : Except String Bool
  dockerNewR : Except String Unit
  dockerPortR : Except String Int
  createR : Int → List ExtraVolumeMount → Except String Unit
  localNewR : Int → Except String Unit
  installR : InstallOpts → Except String Unit

/-- The observable trace of the pipeline: external calls in invocation
order, plus the two `pterm.Warning` messages of the port reconciliation
(the conflict warning carries the two ports it names: found, provided). -/
inductive Event where
  | checkedDockerInstalled
  | checkedPortAvailable (port : Int)
  | queriedClusterExistence
  | connectedDocker
  | warnPortFallback
  | warnPortConflict (found provided : Int)
  | clusterCreateCalled (port : Int) (mounts : List ExtraVolumeMount)
  | localNewCalled (port : Int)
  | installCalled (opts : InstallOpts)
deriving DecidableEq, Repr

/-- `PreRunE`: the docker-installation check followed unconditionally by
the `portAvailable` check on the requested port. -/
def preRunE (w : World) (flags : Flags) : Except String Unit × List Event :=
  match w.dockerVersionR with
  | Except.error e =>
    (Except.error ("unable to determine docker installation status: " ++ e),
      [Event.checkedDockerInstalled])
  | Except.ok _ =>
    match w.portAvailableR flags.port with
    | Except.error e =>
      (Except.error ("port " ++ toString flags.port ++ " is not available: " ++ e),
        [Event.checkedDockerInstalled, Event.checkedPortAvailable flags.port])
    | Except.ok _ =>
      (Except.ok (), [Event.checkedDockerInstalled, Event.checkedPortAvailable flags.port])

/-- Tail of `RunE` shared by every successful provisioning path:
`local.New(provider, local.WithPortHTTP(flagPort), ...)` with the
effective port, then `lc.Install(cmd.Context(), opts)` with the assembled
options. -/
def finishInstall (w : World) (flags : Flags) (getenv : String → String)
    (effectivePort : Int) (evs : List Event) : Except String Unit × List Event :=
  match w.localNewR effectivePort with
  | Except.error e =>
    (Except.error ("unable to initialize local command: " ++ e),
      evs ++ [Event.localNewCalled effectivePort])
  | Except.ok _ =>
    match w.installR (buildInstallOpts flags getenv) with
    | Except.error e =>
      (Except.error e,
        evs ++ [Event.localNewCalled effectivePort,
          Event.installCalled (buildInstallOpts flags getenv)])
    | Except.ok _ =>
      (Except.ok (),
        evs ++ [Event.localNewCalled effectivePort,
          Event.installCalled (buildInstallOpts flags getenv)])

/-- The `cluster.Exists()` branch of `RunE`: only for the kind provider is
the existing port introspected (`dockerClient.Port` of the control-plane
container).  On introspection failure a fallback warning is printed and
`flagPort` is reset to the provided port; afterwards (in either case) a
conflict warning is printed when the provided and effective ports differ.
The `dockerClient == nil` guard only lazily builds the docker client; the
connection attempt is modelled unconditionally. -/
def validateExisting (w : World) (provider : Provider) (flags : Flags)
    (getenv : String → String) : Except String Unit × List Event :=
  if provider.name = GoProviderName.kind then
    match w.dockerNewR with
    | Except.error e =>
      (Except.error ("unable to connect to docker: " ++ e),
        [Event.queriedClusterExistence, Event.connectedDocker])
    | Except.ok _ =>
      let providedPort := flags.port
      match w.dockerPortR with
      | Except.error _ =>
        let flagPort := providedPort
        let evs := [Event.queriedClusterExistence, Event.connectedDocker,
          Event.warnPortFallback]
        let evs2 := if providedPort ≠ flagPort then
            evs ++ [Event.warnPortConflict flagPort providedPort]
          else evs
        finishInstall w flags getenv flagPort evs2
      | Except.ok p =>
        let flagPort := p
        let evs := [Event.queriedClusterExistence, Event.connectedDocker]
        let evs2 := if providedPort ≠ flagPort then
            evs ++ [Event.warnPortConflict flagPort providedPort]
          else evs
        finishInstall w flags getenv flagPort evs2
  else
    finishInstall w flags getenv flags.port [Event.queriedClusterExistence]

/-- The no-existing-cluster branch of `RunE`: parse the extra volume
mounts (returning the parse error unchanged on failure, before any
creation), then `cluster.Create(flagPort, extraVolumeMounts)`. -/
def createCluster (w : World) (flags : Flags) (getenv : String → String) :
    Except String Unit × List Event :=
  match parseVolumeMounts flags.extraVolumeMounts with
  | Except.error e => (Except.error e, [Event.queriedClusterExistence])
  | Except.ok mounts =>
    match w.createR flags.port mounts with
    | Except.error e =>
      (Except.error e,
        [Event.queriedClusterExistence, Event.clusterCreateCalled flags.port mounts])
    | Except.ok _ =>
      finishInstall w flags getenv flags.port
        [Event.queriedClusterExistence, Event.clusterCreateCalled flags.port mounts]

/-- `RunE`: query cluster existence (fatal on error, before anything
else), then validate the existing cluster or create a new one. -/
def runE (w : World) (provider : Provider) (flags : Flags)
    (getenv : String → String) : Except String Unit × List Event :=
  match w.clusterR with
  | Except.error e => (Except.error e, [Event.queriedClusterExistence])
  | Except.ok true => validateExisting w provider flags getenv
  | Except.ok false => createCluster w flags getenv

/-- The whole command: cobra runs `PreRunE` first and aborts on its error,
then `RunE`. -/
def runInstall (w : World) (provider : Provider) (flags : Flags)
    (getenv : String → String) : Except String Unit × List Event :=
  match preRunE w flags with
  | (Except.error e, evs) => (Except.error e, evs)
  | (Except.ok _, evs) =>
    let r := runE w provider flags getenv
    (r.1, evs ++ r.2)

/-- The empty environment: every variable unset (`os.Getenv` yields ""). -/
def env0 : String → String := fun _ => ""

/-- Flags of a plain `abctl local install` run: every flag at its
registered default (requested port 8000, the kind ingress port). -/
def flags0 : Flags := {
  chartValuesFile := ""
  chartSecrets := []
  chartVersion := "latest"
  migrate := false
  port := 8000
  host := "localhost"
  extraVolumeMounts := []
  dockerServer := "https://index.docker.io/v1/"
  dockerUser := ""
  dockerPass := ""
  dockerEmail := ""
  noBrowser := false
  lowResourceMode := false
  insecureCookies := false }

/-- The kind provider. -/
def provKind : Provider := { name := GoProviderName.kind, clusterName := "airbyte-abctl" }

/-- A world where every collaborator succeeds, a cluster exists, and its
control plane reports port 8000. -/
def okWorld : World := {
  dockerVersionR := Except.ok { version := "27.0", arch := "arm64", platform := "linux" }
  portAvailableR := fun _ => Except.ok ()
  clusterR := Except.ok true
  dockerNewR := Except.ok ()
  dockerPortR := Except.ok 8000
  createR := fun _ _ => Except.ok ()
  localNewR := fun _ => Except.ok ()
  installR := fun _ => Except.ok () }

/-- Like `okWorld`, but the existing control plane reports port 8001. -/
def okWorldConflict : World := { okWorld with dockerPortR := Except.ok 8001 }

/-- Like `okWorld`, but the cluster-existence query itself fails. -/
def errClusterWorld : World := { okWorld with clusterR := Except.error "cluster query failed" }

/-- Like `okWorld`, but no cluster exists. -/
def noClusterWorld : World := { okWorld with clusterR := Except.ok false }

/-- Flags requesting a malformed extra volume mount. -/
def flagsBadMount : Flags := { flags0 with extraVolumeMounts := ["badformat"] }

lemma parseVolumeMount1_ok_iff {spec : String} {m : ExtraVolumeMount} :
    parseVolumeMount1 spec = Except.ok m ↔
      stringsSplit spec ':' = [m.hostPath, m.containerPath] := by
  cases m with
  | mk h c =>
    rcases hsp : stringsSplit spec ':' with _ | ⟨a, _ | ⟨b, _ | ⟨d, t⟩⟩⟩ <;>
      simp [parseVolumeMount1, hsp, ExtraVolumeMount.mk.injEq]

lemma parseVolumeMount1_err {spec : String}
    (h : (stringsSplit spec ':').length ≠ 2) :
    parseVolumeMount1 spec = Except.error (volumeErrMsg spec) := by
  rcases hsp : stringsSplit spec ':' with _ | ⟨a, _ | ⟨b, _ | ⟨d, t⟩⟩⟩
  · simp [parseVolumeMount1, hsp]
  · simp [parseVolumeMount1, hsp]
  · exfalso; simp [hsp] at h
  · simp [parseVolumeMount1, hsp]

lemma finishInstall_events (w : World) (flags : Flags) (getenv : String → String)
    (port : Int) (evs : List Event) :
    (finishInstall w flags getenv port evs).2 = evs ++ [Event.localNewCalled port] ∨
    (finishInstall w flags getenv port evs).2 =
      evs ++ [Event.localNewCalled port,
        Event.installCalled (buildInstallOpts flags getenv)] := by
  unfold finishInstall
  cases w.localNewR port with
  | error e => left; rfl
  | ok u =>
    cases w.installR (buildInstallOpts flags getenv) with
    | error e => right; rfl
    | ok u2 => right; rfl

lemma localNewCalled_mem_finishInstall (w : World) (flags : Flags)
    (getenv : String → String) (port : Int) (evs : List Event) :
    Event.localNewCalled port ∈ (finishInstall w flags getenv port evs).2 := by
  rcases finishInstall_events w flags getenv port evs with h | h <;> rw [h] <;> simp

lemma mem_finishInstall_of_mem (w : World) (flags : Flags)
    (getenv : String → String) (port : Int) (evs : List Event) {x : Event}
    (hx : x ∈ evs) :
    x ∈ (finishInstall w flags getenv port evs).2 := by
  rcases finishInstall_events w flags getenv port evs with h | h <;> rw [h] <;>
    exact List.mem_append_left _ hx

lemma mem_finishInstall_cases (w : World) (flags : Flags)
    (getenv : String → String) (port : Int) (evs : List Event) {x : Event}
    (hx : x ∈ (finishInstall w flags getenv port evs).2) :
    x ∈ evs ∨ x = Event.localNewCalled port ∨
      x = Event.installCalled (buildInstallOpts flags getenv) := by
  rcases finishInstall_events w flags getenv port evs with h | h
  · rw [h] at hx
    rcases List.mem_append.mp hx with h1 | h1
    · exact Or.inl h1
    · simp at h1
      exact Or.inr (Or.inl h1)
  · rw [h] at hx
    rcases List.mem_append.mp hx with h1 | h1
    · exact Or.inl h1
    · simp at h1
      rcases h1 with h1 | h1
      · exact Or.inr (Or.inl h1)
      · exact Or.inr (Or.inr h1)

lemma validateExisting_ok_port (w : World) (provider : Provider) (flags : Flags)
    (getenv : String → String) (hk : provider.name = GoProviderName.kind)
    (hdc : w.dockerNewR = Except.ok ()) (p : Int)
    (hport : w.dockerPortR = Except.ok p) :
    validateExisting w provider flags getenv =
      finishInstall w flags getenv p
        (if flags.port ≠ p then
          [Event.queriedClusterExistence, Event.connectedDocker,
            Event.warnPortConflict p flags.port]
        else [Event.queriedClusterExistence, Event.connectedDocker]) := by
  unfold validateExisting
  rw [if_pos hk, hdc, hport]
  rfl

lemma validateExisting_err_port (w : World) (provider : Provider) (flags : Flags)
    (getenv : String → String) (hk : provider.name = GoProviderName.kind)
    (hdc : w.dockerNewR = Except.ok ()) (e : String)
    (hport : w.dockerPortR = Except.error e) :
    validateExisting w provider flags getenv =
      finishInstall w flags getenv flags.port
        [Event.queriedClusterExistence, Event.connectedDocker,
          Event.warnPortFallback] := by
  unfold validateExisting
  rw [if_pos hk, hdc, hport]
  simp

/-- C2: if every raw spec splits on `:` into exactly two parts,
`parseVolumeMounts` succeeds with a list of equal length and order whose
records carry the two sides of the corresponding input spec. -/
theorem parse_volume_mounts_wellformed (specs : List String)
    (hs : ∀ s ∈ specs, (stringsSplit s ':').length = 2) :
    ∃ ms, parseVolumeMounts specs = Except.ok ms ∧
      ms.length = specs.length ∧
      ∀ i (hi : i < specs.length) (hm : i < ms.length),
        (ms.get ⟨i, hm⟩).hostPath = (stringsSplit (specs.get ⟨i, hi⟩) ':').getD 0 "" ∧
        (ms.get ⟨i, hm⟩).containerPath = (stringsSplit (specs.get ⟨i, hi⟩) ':').getD 1 "" := by
  induction specs with
  | nil =>
    exact ⟨[], rfl, rfl, fun i hi => absurd hi (Nat.not_lt_zero i)⟩
  | cons s rest ih =>
    have h2 := hs s (List.mem_cons_self s rest)
    obtain ⟨a, b, hab⟩ := List.length_eq_two.mp h2
    have hps : parseVolumeMount1 s = Except.ok ⟨a, b⟩ :=
      parseVolumeMount1_ok_iff.mpr hab
    obtain ⟨ms, hok, hlen, hfields⟩ := ih (fun t ht => hs t (List.mem_cons_of_mem s ht))
    refine ⟨⟨a, b⟩ :: ms, ?_, ?_, ?_⟩
    · simp [parseVolumeMounts, hps, hok]
    · simp [hlen]
    · intro i hi hm
      cases i with
      | zero => simp [hab]
      | succ j =>
        have hi2 : j < rest.length := by simp at hi; omega
        have hm2 : j < ms.length := by simp at hm; omega
        simpa using hfields j hi2 hm2

/-- Witness for C2 at the concrete specs from the design document. -/
theorem parse_volume_mounts_wellformed_witness :
    ∃ ms, parseVolumeMounts ["/data:/var/data", "/host/a:/guest/a"] = Except.ok ms ∧
      ms.length = (["/data:/var/data", "/host/a:/guest/a"] : List String).length ∧
      ∀ i (hi : i < (["/data:/var/data", "/host/a:/guest/a"] : List String).length)
        (hm : i < ms.length),
        (ms.get ⟨i, hm⟩).hostPath =
          (stringsSplit ((["/data:/var/data", "/host/a:/guest/a"] : List String).get ⟨i, hi⟩) ':').getD 0 "" ∧
        (ms.get ⟨i, hm⟩).containerPath =
          (stringsSplit ((["/data:/var/data", "/host/a:/guest/a"] : List String).get ⟨i, hi⟩) ':').getD 1 "" :=
  parse_volume_mounts_wellformed ["/data:/var/data", "/host/a:/guest/a"] (by decide)

/-- C3: if some raw spec does not split into exactly two parts,
`parseVolumeMounts` fails with the error of the first such spec, whose
message echoes that raw spec, and no mount list is returned. -/
theorem parse_volume_mounts_first_error (specs : List String)
    (h : ∃ s ∈ specs, (stringsSplit s ':').length ≠ 2) :
    ∃ s, specs.find? (fun t => (stringsSplit t ':').length != 2) = some s ∧
      parseVolumeMounts specs = Except.error (volumeErrMsg s) ∧
      ∀ ms, parseVolumeMounts specs ≠ Except.ok ms := by
  induction specs with
  | nil => simp at h
  | cons s rest ih =>
    by_cases h2 : (stringsSplit s ':').length = 2
    · obtain ⟨a, b, hab⟩ := List.length_eq_two.mp h2
      have hps : parseVolumeMount1 s = Except.ok ⟨a, b⟩ :=
        parseVolumeMount1_ok_iff.mpr hab
      have hrest : ∃ t ∈ rest, (stringsSplit t ':').length ≠ 2 := by
        obtain ⟨t, ht, hbad⟩ := h
        rcases List.mem_cons.mp ht with rfl | htr
        · exact absurd h2 hbad
        · exact ⟨t, htr, hbad⟩
      obtain ⟨u, hfind, herr, hnok⟩ := ih hrest
      refine ⟨u, ?_, ?_, ?_⟩
      · rw [List.find?_cons_of_neg _ (by simp [h2])]
        exact hfind
      · simp [parseVolumeMounts, hps, herr]
      · intro ms
        simp [parseVolumeMounts, hps, herr]
    · refine ⟨s, ?_, ?_, ?_⟩
      · exact List.find?_cons_of_pos _ (by simp [h2])
      · simp [parseVolumeMounts, parseVolumeMount1_err h2]
      · intro ms
        simp [parseVolumeMounts, parseVolumeMount1_err h2]

/-- Witness for C3 at the concrete specs from the design document. -/
theorem parse_volume_mounts_first_error_witness :
    ∃ s, (["/host/a:/guest/a", "badformat"] : List String).find?
        (fun t => (stringsSplit t ':').length != 2) = some s ∧
      parseVolumeMounts ["/host/a:/guest/a", "badformat"] = Except.error (volumeErrMsg s) ∧
      ∀ ms, parseVolumeMounts ["/host/a:/guest/a", "badformat"] ≠ Except.ok ms :=
  parse_volume_mounts_first_error ["/host/a:/guest/a", "badformat"] (by decide)

/-- C9 counterexample: the parser does not guarantee non-empty paths — the
raw spec consisting of a lone separator parses successfully into a mount
whose host path and container path are both empty. -/
theorem parse_nonempty_paths_cex :
    ¬ (∀ specs ms, parseVolumeMounts specs = Except.ok ms →
        ∀ m ∈ ms, m.hostPath ≠ "" ∧ m.containerPath ≠ "") := by
  intro hall
  have h := hall [":"] [⟨"", ""⟩] (by rfl) ⟨"", ""⟩ (by simp)
  exact h.1 rfl

/-- C9 amended: every mount produced by the parser carries exactly the two
sides (possibly empty) of one of the input specs split on `:`. -/
theorem parse_mount_paths_from_spec (specs : List String) (ms : List ExtraVolumeMount)
    (hok : parseVolumeMounts specs = Except.ok ms) :
    ∀ m ∈ ms, ∃ s ∈ specs, stringsSplit s ':' = [m.hostPath, m.containerPath] := by
  induction specs generalizing ms with
  | nil =>
    simp [parseVolumeMounts] at hok
    subst hok
    simp
  | cons s rest ih =>
    dsimp [parseVolumeMounts] at hok
    cases hps : parseVolumeMount1 s with
    | error e => rw [hps] at hok; cases hok
    | ok m0 =>
      rw [hps] at hok
      cases hrest : parseVolumeMounts rest with
      | error e => rw [hrest] at hok; cases hok
      | ok ms2 =>
        rw [hrest] at hok
        cases hok
        intro m hm
        rcases List.mem_cons.mp hm with rfl | hm2
        · exact ⟨s, List.mem_cons_self s rest, parseVolumeMount1_ok_iff.mp hps⟩
        · obtain ⟨t, ht, hsp⟩ := ih ms2 hrest m hm2
          exact ⟨t, List.mem_cons_of_mem s ht, hsp⟩

/-- Witness for the amended C9 at a concrete spec list. -/
theorem parse_mount_paths_from_spec_witness :
    ∃ s ∈ (["/data:/var/data"] : List String),
      stringsSplit s ':' = ["/data", "/var/data"] :=
  parse_mount_paths_from_spec ["/data:/var/data"] [⟨"/data", "/var/data"⟩]
    (by rfl) ⟨"/data", "/var/data"⟩ (by simp)

/-- C5: `envOverride` leaves the original value untouched when the
variable is unset or empty (`os.Getenv` yields `""` in both cases), and
replaces it with the variable's value when that value is non-empty. -/
theorem env_override_semantics (getenv : String → String) (original env : String) :
    (getenv env = "" → envOverride getenv original env = original) ∧
    (getenv env ≠ "" → envOverride getenv original env = getenv env) := by
  constructor <;> intro h <;> simp [envOverride, h]

/-- Witness for C5 at concrete environments. -/
theorem env_override_semantics_witness :
    envOverride env0 "orig" envDockerUser = "orig" ∧
    envOverride (fun _ => "custom") "orig" envDockerUser = "custom" :=
  ⟨(env_override_semantics env0 "orig" envDockerUser).1 rfl,
   (env_override_semantics (fun _ => "custom") "orig" envDockerUser).2 (by decide)⟩

/-- C6: the assembled options rewrite a chart version equal to the literal
`"latest"` to the empty string; any other version passes through
unchanged (the env overrides never touch the chart version). -/
theorem chart_version_normalization (flags : Flags) (getenv : String → String) :
    (buildInstallOpts flags getenv).helmChartVersion =
      if flags.chartVersion = "latest" then "" else flags.chartVersion := rfl

/-- C10: applying the four env overrides changes at most the four docker
credential fields — every other field of the options is preserved
exactly, for every environment. -/
theorem env_overrides_frame (getenv : String → String) (opts : InstallOpts) :
    (applyEnvOverrides getenv opts).helmChartVersion = opts.helmChartVersion ∧
    (applyEnvOverrides getenv opts).valuesFile = opts.valuesFile ∧
    (applyEnvOverrides getenv opts).secrets = opts.secrets ∧
    (applyEnvOverrides getenv opts).migrate = opts.migrate ∧
    (applyEnvOverrides getenv opts).host = opts.host ∧
    (applyEnvOverrides getenv opts).noBrowser = opts.noBrowser ∧
    (applyEnvOverrides getenv opts).lowResourceMode = opts.lowResourceMode ∧
    (applyEnvOverrides getenv opts).insecureCookies = opts.insecureCookies :=
  ⟨rfl, rfl, rfl, rfl, rfl, rfl, rfl, rfl⟩

/-- C8 counterexample: a plain default run (no credential flags, flag
validation trivially satisfied, no env overrides) reaches install
invocation with `docker-server` at its non-empty registered default while
username, password and email are empty — the four fields are neither all
absent nor all present. -/
theorem registry_creds_group_cex :
    credFlagsValid { server := none, user := none, pass := none, email := none } ∧
    ¬ (credsAllAbsent (buildInstallOpts
          (resolveCredFlags { server := none, user := none, pass := none, email := none }
            flags0) env0) ∨
       credsAllPresent (buildInstallOpts
          (resolveCredFlags { server := none, user := none, pass := none, email := none }
            flags0) env0)) := by
  constructor
  · exact Or.inr ⟨rfl, rfl, rfl⟩
  · intro hor
    rcases hor with habs | hpres
    · exact absurd habs.1 (by decide)
    · exact hpres.2.1 (by decide)

/-- C8 amended: only the three flag-bound fields username/password/email
form a validated group, and only at flag level: when cobra's
required-together validation passes, every provided value is non-empty,
and none of the three env overrides is set, the three fields are all
absent or all present at install invocation.  (The server field always
carries its non-empty default, and env overrides applied after flag
validation can unbalance the group.) -/
theorem registry_creds_group_amended (c : CredFlagInputs) (flags : Flags)
    (getenv : String → String)
    (hv : credFlagsValid c)
    (hu : ∀ s, c.user = some s → s ≠ "")
    (hp : ∀ s, c.pass = some s → s ≠ "")
    (he : ∀ s, c.email = some s → s ≠ "")
    (hgu : getenv envDockerUser = "")
    (hgp : getenv envDockerPass = "")
    (hge : getenv envDockerEmail = "") :
    ((buildInstallOpts (resolveCredFlags c flags) getenv).dockerUser = "" ∧
     (buildInstallOpts (resolveCredFlags c flags) getenv).dockerPass = "" ∧
     (buildInstallOpts (resolveCredFlags c flags) getenv).dockerEmail = "") ∨
    ((buildInstallOpts (resolveCredFlags c flags) getenv).dockerUser ≠ "" ∧
     (buildInstallOpts (resolveCredFlags c flags) getenv).dockerPass ≠ "" ∧
     (buildInstallOpts (resolveCredFlags c flags) getenv).dockerEmail ≠ "") := by
  have hu2 : (buildInstallOpts (resolveCredFlags c flags) getenv).dockerUser =
      c.user.getD "" := by
    simp [buildInstallOpts, applyEnvOverrides, envOverride, resolveCredFlags, hgu]
  have hp2 : (buildInstallOpts (resolveCredFlags c flags) getenv).dockerPass =
      c.pass.getD "" := by
    simp [buildInstallOpts, applyEnvOverrides, envOverride, resolveCredFlags, hgp]
  have he2 : (buildInstallOpts (resolveCredFlags c flags) getenv).dockerEmail =
      c.email.getD "" := by
    simp [buildInstallOpts, applyEnvOverrides, envOverride, resolveCredFlags, hge]
  rcases hv with ⟨hus, hps2, hes⟩ | ⟨hun, hpn, hen⟩
  · right
    obtain ⟨su, hsu⟩ := Option.isSome_iff_exists.mp hus
    obtain ⟨sp, hsp2⟩ := Option.isSome_iff_exists.mp hps2
    obtain ⟨se, hse⟩ := Option.isSome_iff_exists.mp hes
    refine ⟨?_, ?_, ?_⟩
    · rw [hu2, hsu, Option.getD_some]; exact hu su hsu
    · rw [hp2, hsp2, Option.getD_some]; exact hp sp hsp2
    · rw [he2, hse, Option.getD_some]; exact he se hse
  · left
    refine ⟨?_, ?_, ?_⟩
    · rw [hu2, hun, Option.getD_none]
    · rw [hp2, hpn, Option.getD_none]
    · rw [he2, hen, Option.getD_none]

/-- Witness for the amended C8: all three credential flags provided with
non-empty values and no env overrides. -/
theorem registry_creds_group_amended_witness :
    ((buildInstallOpts (resolveCredFlags
        { server := none, user := some "u", pass := some "p", email := some "e" }
        flags0) env0).dockerUser = "" ∧
     (buildInstallOpts (resolveCredFlags
        { server := none, user := some "u", pass := some "p", email := some "e" }
        flags0) env0).dockerPass = "" ∧
     (buildInstallOpts (resolveCredFlags
        { server := none, user := some "u", pass := some "p", email := some "e" }
        flags0) env0).dockerEmail = "") ∨
    ((buildInstallOpts (resolveCredFlags
        { server := none, user := some "u", pass := some "p", email := some "e" }
        flags0) env0).dockerUser ≠ "" ∧
     (buildInstallOpts (resolveCredFlags
        { server := none, user := some "u", pass := some "p", email := some "e" }
        flags0) env0).dockerPass ≠ "" ∧
     (buildInstallOpts (resolveCredFlags
        { server := none, user := some "u", pass := some "p", email := some "e" }
        flags0) env0).dockerEmail ≠ "") :=
  registry_creds_group_amended
    { server := none, user := some "u", pass := some "p", email := some "e" }
    flags0 env0 (Or.inl ⟨rfl, rfl, rfl⟩)
    (fun s hs => by rw [← Option.some.inj hs]; decide)
    (fun s hs => by rw [← Option.some.inj hs]; decide)
    (fun s hs => by rw [← Option.some.inj hs]; decide)
    rfl rfl rfl

/-- C1: with an existing cluster and the kind provider — if introspection
returns a port P different from the requested port R, the run continues
with effective port P (passed to `local.New`) and a conflict warning
naming P and R is emitted; if P equals R no warning is emitted; if
introspection fails, the run does not abort, continues with the requested
port R, and a fallback warning is emitted. -/
theorem port_reconciliation (w : World) (provider : Provider) (flags : Flags)
    (getenv : String → String)
    (hex : w.clusterR = Except.ok true)
    (hk : provider.name = GoProviderName.kind)
    (hdc : w.dockerNewR = Except.ok ()) :
    (∀ p, w.dockerPortR = Except.ok p → p ≠ flags.port →
      Event.localNewCalled p ∈ (runE w provider flags getenv).2 ∧
      Event.warnPortConflict p flags.port ∈ (runE w provider flags getenv).2) ∧
    (w.dockerPortR = Except.ok flags.port →
      Event.localNewCalled flags.port ∈ (runE w provider flags getenv).2 ∧
      (∀ a b, Event.warnPortConflict a b ∉ (runE w provider flags getenv).2) ∧
      Event.warnPortFallback ∉ (runE w provider flags getenv).2) ∧
    (∀ e, w.dockerPortR = Except.error e →
      Event.warnPortFallback ∈ (runE w provider flags getenv).2 ∧
      Event.localNewCalled flags.port ∈ (runE w provider flags getenv).2) := by
  have hrun : runE w provider flags getenv = validateExisting w provider flags getenv := by
    unfold runE; rw [hex]
  refine ⟨?_, ?_, ?_⟩
  · intro p hport hne
    rw [hrun, validateExisting_ok_port w provider flags getenv hk hdc p hport,
      if_pos (Ne.symm hne)]
    exact ⟨localNewCalled_mem_finishInstall w flags getenv p _,
      mem_finishInstall_of_mem w flags getenv p _ (by simp)⟩
  · intro hport
    rw [hrun, validateExisting_ok_port w provider flags getenv hk hdc flags.port hport,
      if_neg (fun hcon => hcon rfl)]
    refine ⟨localNewCalled_mem_finishInstall w flags getenv flags.port _, ?_, ?_⟩
    · intro a b hmem
      rcases mem_finishInstall_cases w flags getenv flags.port _ hmem with h | h | h <;>
        simp at h
    · intro hmem
      rcases mem_finishInstall_cases w flags getenv flags.port _ hmem with h | h | h <;>
        simp at h
  · intro e hport
    rw [hrun, validateExisting_err_port w provider flags getenv hk hdc e hport]
    exact ⟨mem_finishInstall_of_mem w flags getenv flags.port _ (by simp),
      localNewCalled_mem_finishInstall w flags getenv flags.port _⟩

/-- Witness for C1: existing kind cluster on port 8001, requested port
8000 — effective port 8001 and a conflict warning naming 8001 and 8000. -/
theorem port_reconciliation_witness :
    Event.localNewCalled 8001 ∈ (runE okWorldConflict provKind flags0 env0).2 ∧
    Event.warnPortConflict 8001 8000 ∈ (runE okWorldConflict provKind flags0 env0).2 :=
  (port_reconciliation okWorldConflict provKind flags0 env0 rfl rfl rfl).1
    8001 rfl (by decide)

/-- C4: cluster creation is never attempted on an unsafe run — a failing
existence query aborts with only the existence query in the trace, and in
the no-cluster path a malformed mount spec aborts with the parse error
before `cluster.Create` is invoked (the trace contains no
`clusterCreateCalled` and no install event in either case). -/
theorem no_create_on_failed_precondition (w : World) (provider : Provider) (flags : Flags)
    (getenv : String → String) :
    (∀ e, w.clusterR = Except.error e →
      runE w provider flags getenv =
        (Except.error e, [Event.queriedClusterExistence])) ∧
    (∀ e, w.clusterR = Except.ok false →
      parseVolumeMounts flags.extraVolumeMounts = Except.error e →
      runE w provider flags getenv =
        (Except.error e, [Event.queriedClusterExistence])) := by
  constructor
  · intro e he
    unfold runE
    rw [he]
  · intro e he hparse
    unfold runE
    rw [he]
    unfold createCluster
    rw [hparse]

/-- Witness for C4: a failing existence query, and a bad mount spec in the
no-cluster path, each abort with only the existence query performed. -/
theorem no_create_on_failed_precondition_witness :
    runE errClusterWorld provKind flags0 env0 =
      (Except.error "cluster query failed", [Event.queriedClusterExistence]) ∧
    runE noClusterWorld provKind flagsBadMount env0 =
      (Except.error (volumeErrMsg "badformat"), [Event.queriedClusterExistence]) :=
  ⟨(no_create_on_failed_precondition errClusterWorld provKind flags0 env0).1
      "cluster query failed" rfl,
   (no_create_on_failed_precondition noClusterWorld provKind flagsBadMount env0).2
      (volumeErrMsg "badformat") rfl (by rfl)⟩

/-- C7 counterexample: in a run that finds and reuses an existing cluster
(`okWorld.clusterR` is `ok true`), the pipeline still checks that the
requested port is free — the check happens in `PreRunE`, before the
existence query, on every invocation. -/
theorem port_precheck_reuse_cex :
    okWorld.clusterR = Except.ok true ∧
    Event.checkedPortAvailable 8000 ∈ (runInstall okWorld provKind flags0 env0).2 := by
  refine ⟨rfl, ?_⟩
  decide

/-- C7 amended: the port-availability pre-check is performed on every
invocation whose docker check succeeds — in the existing-cluster path as
well as the no-cluster path — and it precedes the cluster-existence
query (it is the second event of every trace). -/
theorem port_precheck_every_invocation (w : World) (provider : Provider)
    (flags : Flags) (getenv : String → String) (v : DockerVersion)
    (hdv : w.dockerVersionR = Except.ok v) :
    Event.checkedPortAvailable flags.port ∈ (runInstall w provider flags getenv).2 ∧
    (runInstall w provider flags getenv).2.take 2 =
      [Event.checkedDockerInstalled, Event.checkedPortAvailable flags.port] := by
  unfold runInstall preRunE
  rw [hdv]
  cases hpa : w.portAvailableR flags.port with
  | error e => simp
  | ok u => simp [List.take]

/-- Witness for the amended C7: the pre-check runs (second in the trace)
even though a cluster exists and is reused. -/
theorem port_precheck_every_invocation_witness :
    Event.checkedPortAvailable 8000 ∈ (runInstall okWorld provKind flags0 env0).2 ∧
    (runInstall okWorld provKind flags0 env0).2.take 2 =
      [Event.checkedDockerInstalled, Event.checkedPortAvailable 8000] :=
  port_precheck_every_invocation okWorld provKind flags0 env0
    { version := "27.0", arch := "arm64", platform := "linux" } rfl

end AbctlInstall
